import Mathlib

/-!
Verification development for `scripts/mount_veracrypt_volume.py`.

The script is shallowly embedded: each Python function becomes a Lean
definition of the same name (where Lean allows it).  External effects
(subprocesses, `shutil.which`, `getpass`, the filesystem) are supplied by a
`World`/`Env` record of oracles, and `pyMain` (the embedding of `main`)
returns, besides the exit code, the ordered list of logging calls made and
the ordered list of external-process events, so that properties about what
is logged and what is executed can be stated.

Conventions of the embedding:
* a `configparser` section is an association list of string key/value pairs
  in file order (`Config`); `dict.get` is `cfgGet` (first match), and
  assignment is `cfgSet` (update in place, else append) - interpolation and
  `DEFAULT`-section inheritance of `configparser` are not exercised by the
  script and are not modelled;
* Python f-string interpolation of an optional value is `pyStr`
  (`str(None) = "None"`);
* Python truthiness of an optional string (`if not d.get(k)`) is `pyTruthy`
  (`None` and `""` are falsy);
* `list.insert` is `pyInsert` (indices used by the script are in range);
* `SectionProxy.getboolean` is `getbooleanTruthy`: a missing key yields
  `None`, which the script's `if` treats as false, hence `.ok false`; a
  value outside `configparser.BOOLEAN_STATES` raises `ValueError`, hence
  `.error ()`, which `main` does not catch (`MainOutcome.unhandledValueError`);
* `subprocess.run` without `check=True` is `pyRun result false`, which never
  raises (`CalledProcessError` would only arise with `check=True`);
* machine integers: the script does no arithmetic on configuration values,
  so exit codes are plain `Int` and drive numbers stay the strings read
  from the `.ini` file (the `int` annotation in the source is not enforced
  by Python; the values flow only through f-strings).
-/

/-- Python `str(x)` for an optional string, as produced by f-string
interpolation of `dict.get`: `None` prints as `"None"`. -/
def pyStr : Option String → String
  | none => "None"
  | some s => s

/-- Python truthiness of `dict.get(key)`: `None` and the empty string are
falsy, every other string is truthy. -/
def pyTruthy : Option String → Bool
  | none => false
  | some s => !(s == "")

/-- Python `list.insert(i, x)`: inserts before index `i`, appending when the
index is past the end. -/
def pyInsert (x : α) : Nat → List α → List α
  | _, [] => [x]
  | 0, l => x :: l
  | n + 1, h :: t => h :: pyInsert x n t

/-- A parsed `configparser` section: key/value pairs in file order. -/
abbrev Config : Type := List (String × String)

/-- Python `dict.get(key)` on a section: the value at the first matching
key, if any. -/
def cfgGet (config_data : Config) (key : String) : Option String :=
  (List.find? (fun e => e.1 == key) config_data).map (fun e => e.2)

/-- Python `dict[key] = value` on a section: replaces the value in place if
the key exists, otherwise appends the pair at the end. -/
def cfgSet (config_data : Config) (key value : String) : Config :=
  if (List.find? (fun e => e.1 == key) config_data).isSome then
    List.map (fun e => if e.1 == key then (key, value) else e) config_data
  else List.append config_data [(key, value)]

/-- Python `str.lower` on the ASCII range that `configparser` boolean
values use (`Char.toLower` only maps `A`-`Z`, as `str.lower` does there;
`String.toLower` itself is avoided because its byte-level implementation
does not reduce in the kernel). -/
def pyLower (s : String) : String := String.mk (List.map Char.toLower s.data)

/-- The `configparser._convert_to_boolean` table: `BOOLEAN_STATES` keys on
the lowercased value; anything else raises `ValueError` (`none`). -/
def convertToBoolean (value : String) : Option Bool :=
  let s := pyLower value
  if s == "1" || s == "yes" || s == "true" || s == "on" then some true
  else if s == "0" || s == "no" || s == "false" || s == "off" then some false
  else none

/-- Truthiness of `SectionProxy.getboolean(key)` as used in
`if config_data.getboolean("use_truecrypt")`: a missing key gives `None`
(falsy, so `.ok false`); an unparsable value raises `ValueError`
(`.error ()`). -/
def getbooleanTruthy (config_data : Config) (key : String) : Except Unit Bool :=
  match cfgGet config_data key with
  | none => Except.ok false
  | some v =>
    match convertToBoolean v with
    | some b => Except.ok b
    | none => Except.error ()

/-- Result of a finished subprocess: `subprocess.CompletedProcess` with the
captured byte streams decoded. -/
structure CompletedProcess where
  returncode : Int
  stdout : String
  stderr : String
deriving DecidableEq

/-- Semantics of `subprocess.run`: with `check=True` a nonzero exit raises
`CalledProcessError` (modelled as `.error`), otherwise the completed
process is returned as-is.  Every `run` call in this script passes no
`check`, i.e. `check=False`. -/
def pyRun (result : CompletedProcess) (check : Bool) : Except CompletedProcess CompletedProcess :=
  if check && result.returncode != 0 then Except.error result else Except.ok result

/-- Oracles for the external world: what each spawned command line returns,
what `shutil.which` finds, and what `getpass` reads. -/
structure World where
  runResult : List String → CompletedProcess
  whichResult : String → Option String
  getpassResult : String

/-- Record of one `subprocess` spawn: its argv and which of its output
streams were redirected to `PIPE`. -/
structure RunEvent where
  argv : List String
  pipeStdout : Bool
  pipeStderr : Bool
deriving DecidableEq

/-- Embeds `build_physical_drive_name`: the WSL physical drive name from a
given drive number (an f-string, so the number is taken as its string
form). -/
def build_physical_drive_name (physical_drive_number : String) : String :=
  "PHYSICALDRIVE" ++ physical_drive_number

/-- The argv of the `wsl --mount --bare` call made by
`mount_physical_drive`. -/
def mountDriveArgv (drive_num wsl_exe : String) : List String :=
  [wsl_exe, "--mount", "\\\\.\\" ++ build_physical_drive_name drive_num, "--bare"]

/-- Embeds `mount_physical_drive`: runs `wsl --mount \\.\PHYSICALDRIVEn
--bare` with both streams piped and returns the `CompletedProcess`; `run`
is called without `check=True`, so a nonzero exit does not raise. -/
def mount_physical_drive (w : World) (drive_num wsl_exe : String) :
    Except CompletedProcess CompletedProcess :=
  pyRun (w.runResult (mountDriveArgv drive_num wsl_exe)) false

/-- Two successive calls of `mount_physical_drive` with the same drive
number and executable, the world possibly having changed state in between
(the first call may have attached the drive already). -/
def mount_physical_drive_twice (w₁ w₂ : World) (drive_num wsl_exe : String) :
    Except CompletedProcess CompletedProcess × Except CompletedProcess CompletedProcess :=
  (mount_physical_drive w₁ drive_num wsl_exe, mount_physical_drive w₂ drive_num wsl_exe)

/-- Embeds `build_veracrypt_cmdline`.  The platform is the value of
`sys.platform`.  `.error ()` is the `ValueError` that
`config_data.getboolean("use_truecrypt")` raises on an unparsable value;
the list construction itself has no effects, so hoisting that call to the
front preserves the function's value.  On `win32` the inserted `wsl_exe`
token is the raw `config_data.get` result (`None` only if validation was
skipped, in which case the later `" ".join` in `main` would fail); it is
rendered through `pyStr` to keep the token list string-typed. -/
def build_veracrypt_cmdline (plat : String) (config_data : Config) :
    Except Unit (List String) :=
  match getbooleanTruthy config_data "use_truecrypt" with
  | Except.error _ => Except.error ()
  | Except.ok use_truecrypt =>
    let slot_num := (cfgGet config_data "slot_num").getD "1"
    let cmdline : List String := [
      "veracrypt",
      "-t",
      "--keyfiles=" ++ pyStr (cfgGet config_data "keyfile_path"),
      "--password=" ++ pyStr (cfgGet config_data "volume_password"),
      "--pim=" ++ pyStr (cfgGet config_data "personal_iterations_multiplier"),
      "--protect-hidden=" ++ pyStr (cfgGet config_data "using_hidden_partition"),
      "--slot=" ++ slot_num,
      pyStr (cfgGet config_data "drive_partition")]
    let cmdline := if use_truecrypt then pyInsert "-tc" 3 cmdline else cmdline
    let cmdline :=
      if plat == "win32" then
        let drive_num := pyStr (cfgGet config_data "physical_drive_num")
        let wsl_exe := pyStr (cfgGet config_data "wsl_exe")
        let mount_point_windows := "/mnt/wsl/" ++ build_physical_drive_name drive_num
        List.append (pyInsert "-m=nokernelcrypto" 3 (pyInsert wsl_exe 0 cmdline))
          [mount_point_windows]
      else cmdline
    let cmdline :=
      if plat == "linux" then
        List.append cmdline ["/media/veracrypt" ++ slot_num]
      else cmdline
    Except.ok cmdline

/-- Embeds `load_config_file`, applied to the section list that
`ConfigParser.read` produced for the file at the given path (a nonexistent
or unreadable file is silently skipped by `read` and yields no sections).
Raises `ConfigError` when no section is literally named `Veracrypt`. -/
def load_config_file (parsedFile : List (String × Config)) : Except String Config :=
  match List.find? (fun s => s.1 == "Veracrypt") parsedFile with
  | some s => Except.ok s.2
  | none => Except.error "Section [Veracrypt] not found in config file!"

/-- Message of the `ConfigError` raised by `validate_config_data` when
`wsl_root` is missing. -/
def wslRootErrMsg : String :=
  "WSL_ROOT is not set!\nPlease set it to WSL\x27s root share path for the current distribution [e.g. \x27\\\\wsl.localhost\\Ubuntu\x27]."

/-- Message of the `ConfigError` raised when the WSL executable cannot be
found on the search path. -/
def wslExeErrMsg (wsl_path : String) : String :=
  "Unable to find Windows Subsystem for Linux executable at \x27" ++ wsl_path ++ "\x27!\nPlease make sure WSL is installed at the path set for WSL_EXE in the config file."

/-- Message of the `ConfigError` raised when `physical_drive_num` is
missing; embeds the captured `wmic` listing verbatim. -/
def driveNumErrMsg (wmic_drive_list : String) : String :=
  "PHYSICAL_DRIVE_NUM is not set!\nPlease set it to the DeviceID for the drive containing the Veracrypt volume. [e.g. \x270\x27 for \x27PHYSICALDRIVE0\x27].\nCurrently detected physical drives:\n" ++ wmic_drive_list

/-- Message of the `ConfigError` raised when `drive_partition` is missing;
embeds the captured `lsblk` listing verbatim. -/
def drivePartitionErrMsg (partition_list : String) : String :=
  "DRIVE_PARTITION is not set!\nPlease set it to the Linux partition of the Veracrypt volume [e.g. \x27/dev/sda1\x27].\nCurrently detected Linux partitions:\n" ++ partition_list

/-- The tail of `validate_config_data` shared by both platforms: the
`drive_partition` check (on `win32` preceded by a bare drive attach, with
`wsl` prepended to the `lsblk` argv) and the interactive password
resolution.  On the `win32` path the direct `config_data[...]` indexings
are guarded by the earlier checks, so the keys are present and the `getD`
defaults are never taken. -/
def validateRest (plat : String) (w : World) (config_data : Config)
    (evs : List RunEvent) : Except String Config × List RunEvent :=
  if ! pyTruthy (cfgGet config_data "drive_partition") then
    if plat == "win32" then
      let wsl_path := (cfgGet config_data "wsl_exe").getD ""
      let drive_num := (cfgGet config_data "physical_drive_num").getD ""
      let lsblkArgv := [wsl_path, "lsblk"]
      (Except.error (drivePartitionErrMsg (w.runResult lsblkArgv).stdout),
        List.append evs
          [RunEvent.mk (mountDriveArgv drive_num wsl_path) true true,
           RunEvent.mk lsblkArgv true false])
    else
      let lsblkArgv := ["lsblk"]
      (Except.error (drivePartitionErrMsg (w.runResult lsblkArgv).stdout),
        List.append evs [RunEvent.mk lsblkArgv true false])
  else if ! pyTruthy (cfgGet config_data "volume_password") then
    (Except.ok (cfgSet config_data "volume_password" w.getpassResult), evs)
  else (Except.ok config_data, evs)

/-- Embeds `validate_config_data`.  Returns the configuration as mutated
(`wsl_exe` defaulted on `win32`, `volume_password` filled from `getpass`)
or the message of the raised `ConfigError`, together with the subprocess
spawns performed, in order. -/
def validate_config_data (plat : String) (w : World) (config_data : Config) :
    Except String Config × List RunEvent :=
  if plat == "win32" then
    if ! pyTruthy (cfgGet config_data "wsl_root") then
      (Except.error wslRootErrMsg, [])
    else
      let wsl_path := (cfgGet config_data "wsl_exe").getD "wsl"
      let config1 := cfgSet config_data "wsl_exe" wsl_path
      if (w.whichResult wsl_path).isNone then
        (Except.error (wslExeErrMsg wsl_path), [])
      else if ! pyTruthy (cfgGet config1 "physical_drive_num") then
        let wmicArgv := ["wmic.exe", "diskdrive", "list", "brief"]
        (Except.error (driveNumErrMsg (w.runResult wmicArgv).stdout),
          [RunEvent.mk wmicArgv true false])
      else validateRest plat w config1 []
  else validateRest plat w config_data []

/-- Severity of a logging call made by `main` (the handler's threshold is a
display concern; the calls themselves are recorded). -/
inductive LogLevel
  | debug
  | info
  | error
deriving DecidableEq

/-- External effects of `main` beyond logging: subprocess spawns,
`Path.mkdir`, the shell `Popen` of the veracrypt command line, the `wait`
on it (recording what the external tool returned), and the
`pause_for_input` prompt. -/
inductive Event
  | runProc (ev : RunEvent)
  | mkdir (path : String)
  | popen (cmd : String) (shell : Bool)
  | waitProc (ret : Int)
  | pause
deriving DecidableEq

/-- Outcome of `main`: a returned exit code, or the uncaught `ValueError`
from `getboolean` (the only exception the `try` block does not catch). -/
inductive MainOutcome
  | exit (code : Int)
  | unhandledValueError
deriving DecidableEq

/-- Result of one run of `main`: its outcome, every logging call in order,
whether `load_config_file` was invoked, and the external events in order. -/
structure MainResult where
  outcome : MainOutcome
  logs : List (LogLevel × String)
  configLoaded : Bool
  events : List Event
deriving DecidableEq

/-- The whole-process environment `main` runs in: `sys.platform`, the
privilege oracles (`os.getuid` / `windll.shell32.IsUserAnAdmin`), the
parsed configuration file, `config_path.name`, the subprocess world,
`Path.exists`, and the exit status the launched veracrypt process
eventually hands to `wait`. -/
structure Env where
  plat : String
  uid : Nat
  isUserAnAdmin : Int
  parsedFile : List (String × Config)
  configPathName : String
  world : World
  pathExists : String → Bool
  veracryptWaitReturn : Int

/-- Embeds `have_admin_rights`: root check on Linux, `IsUserAnAdmin` on
Windows, `False` on any other platform. -/
def have_admin_rights (e : Env) : Bool :=
  if e.plat == "linux" then e.uid == 0
  else if e.plat == "win32" then e.isUserAnAdmin != 0
  else false

/-- The two `logger.error` lines of the `AdminError` handler. -/
def adminErrLogs : List (LogLevel × String) :=
  [(LogLevel.error, "This script requires administrative rights to mount volumes."),
   (LogLevel.error, "Please re-run this script as an administrator or as root.")]

/-- The two `logger.error` lines of the `ConfigError` handler, the second
being the exception's message. -/
def configFileErrLogLines (msg : String) : List (LogLevel × String) :=
  [(LogLevel.error, "An error has been detected in the configuration file:"),
   (LogLevel.error, msg)]

/-- The value `main` logs for a configuration key: `volume_password` is
masked as `******`, every other value is passed through. -/
def maskedValue (config_name config_value : String) : String :=
  if config_name == "volume_password" then "******" else config_value

/-- One per-key `logger.debug` line: `f"{config_name}={config_value}"`
after masking. -/
def keyLogLine (config_name config_value : String) : String :=
  config_name ++ "=" ++ maskedValue config_name config_value

/-- The `logger.info` line announcing the configuration load, built from
`config_path.name`. -/
def loadLogLine (configPathName : String) : LogLevel × String :=
  (LogLevel.info,
   "Loading configuration from config file \x27" ++ configPathName ++ "\x27...")

/-- The final `logger.info` line: deliberately only the last two tokens of
the assembled command line, never the password-bearing ones. -/
def mountLogLine (drive_partition mount_point : String) : LogLevel × String :=
  (LogLevel.info,
   "Mounting Veracrypt volume \x27" ++ drive_partition ++ "\x27 to \x27"
     ++ mount_point ++ "\x27...")

/-- The `main` win32 branch's host-side mount point
`Path(wsl_root, "mnt", "wsl", name)`, rendered with backslash separators
as `str(WindowsPath)` does for a root with no trailing separator. -/
def winHostMountPoint (cfg2 : Config) : String :=
  pyStr (cfgGet cfg2 "wsl_root") ++ "\\mnt\\wsl\\"
    ++ build_physical_drive_name (pyStr (cfgGet cfg2 "physical_drive_num"))

/-- Logging calls of `main`'s win32-only block (mount-point creation and
drive attach), empty on any other platform. -/
def mainWinLogs (e : Env) (cfg2 : Config) : List (LogLevel × String) :=
  if e.plat == "win32" then
    List.append
      (if ! e.pathExists (winHostMountPoint cfg2) then
        [(LogLevel.info,
          "Creating mount point at \x27" ++ winHostMountPoint cfg2 ++ "\x27...")]
      else [])
      [(LogLevel.info,
        "Mounting Veracrypt drive at drive number \x27"
          ++ pyStr (cfgGet cfg2 "physical_drive_num") ++ "\x27...")]
  else []

/-- External events of `main`'s win32-only block (`Path.mkdir` and the
`mount_physical_drive` spawn), empty on any other platform. -/
def mainWinEvents (e : Env) (cfg2 : Config) : List Event :=
  if e.plat == "win32" then
    List.append
      (if ! e.pathExists (winHostMountPoint cfg2) then
        [Event.mkdir (winHostMountPoint cfg2)]
      else [])
      [Event.runProc
        (RunEvent.mk
          (mountDriveArgv (pyStr (cfgGet cfg2 "physical_drive_num"))
            (pyStr (cfgGet cfg2 "wsl_exe")))
          true true)]
  else []

/-- Embeds `main`. -/
def pyMain (e : Env) : MainResult :=
  if ! have_admin_rights e then
    { outcome := MainOutcome.exit (-1)
      logs := adminErrLogs
      configLoaded := false
      events := [Event.pause] }
  else
    match load_config_file e.parsedFile with
    | Except.error msg =>
      { outcome := MainOutcome.exit (-2)
        logs := loadLogLine e.configPathName :: configFileErrLogLines msg
        configLoaded := true
        events := [Event.pause] }
    | Except.ok config_data =>
      let debugLogs :=
        List.map (fun kv => (LogLevel.debug, keyLogLine kv.1 kv.2)) config_data
      match validate_config_data e.plat e.world config_data with
      | (Except.error msg, evs) =>
        { outcome := MainOutcome.exit (-2)
          logs := loadLogLine e.configPathName ::
            List.append debugLogs (configFileErrLogLines msg)
          configLoaded := true
          events := List.append (List.map Event.runProc evs) [Event.pause] }
      | (Except.ok cfg2, evs) =>
        match build_veracrypt_cmdline e.plat cfg2 with
        | Except.error _ =>
          { outcome := MainOutcome.unhandledValueError
            logs := loadLogLine e.configPathName ::
              List.append debugLogs (mainWinLogs e cfg2)
            configLoaded := true
            events := List.append (List.map Event.runProc evs) (mainWinEvents e cfg2) }
        | Except.ok veracrypt_cmdline =>
          { outcome := MainOutcome.exit 0
            logs := loadLogLine e.configPathName ::
              List.append debugLogs
                (List.append (mainWinLogs e cfg2)
                  [mountLogLine
                    (veracrypt_cmdline.getD (veracrypt_cmdline.length - 2) "")
                    (veracrypt_cmdline.getD (veracrypt_cmdline.length - 1) "")])
            configLoaded := true
            events := List.append (List.map Event.runProc evs)
              (List.append (mainWinEvents e cfg2)
                [Event.popen (String.intercalate " " veracrypt_cmdline) true,
                 Event.waitProc e.veracryptWaitReturn]) }

/-- Helper for `strContains`: whether `pat` is a prefix of any suffix. -/
def strContainsAux (pat : List Char) : List Char → Bool
  | [] => pat.isEmpty
  | c :: rest => List.isPrefixOf pat (c :: rest) || strContainsAux pat rest

/-- Whether `pat` occurs as a contiguous substring of `s` (Python
`pat in s`). -/
def strContains (s pat : String) : Bool :=
  strContainsAux pat.data s.data

/-- A benign world for concrete runs: every spawned process exits 0 with a
fixed listing on stdout, every executable is found, and the interactive
password prompt reads `prompted`. -/
def benignWorld : World where
  runResult := fun _ => { returncode := 0, stdout := "sda 8:0 disk", stderr := "" }
  whichResult := fun s => some s
  getpassResult := "prompted"

/-- Concrete parsed configuration file used by the round-trip run: one
section `Veracrypt` with partition, password and slot. -/
def iniRoundTrip : List (String × Config) :=
  [("Veracrypt",
    [("drive_partition", "/dev/sda1"), ("volume_password", "hunter2"),
     ("slot_num", "2")])]

/-- The mapping loaded from `iniRoundTrip`. -/
def cfgRoundTrip : Config :=
  [("drive_partition", "/dev/sda1"), ("volume_password", "hunter2"),
   ("slot_num", "2")]

/-- A configuration whose `drive_partition` value is the literal WSL flag
string: legitimate as far as loading and validation are concerned. -/
def cfgFlagPartition : Config :=
  [("use_truecrypt", "true"), ("drive_partition", "-m=nokernelcrypto")]

/-- A concrete linux environment: root, a configuration whose password
equals its partition path. -/
def envPwEqPartition : Env where
  plat := "linux"
  uid := 0
  isUserAnAdmin := 0
  parsedFile :=
    [("Veracrypt",
      [("drive_partition", "/dev/sda1"), ("volume_password", "/dev/sda1")])]
  configPathName := "veracrypt.ini"
  world := benignWorld
  pathExists := fun _ => false
  veracryptWaitReturn := 0

/-- A concrete linux environment with an ordinary configuration. -/
def envLinuxOk : Env where
  plat := "linux"
  uid := 0
  isUserAnAdmin := 0
  parsedFile := iniRoundTrip
  configPathName := "veracrypt.ini"
  world := benignWorld
  pathExists := fun _ => false
  veracryptWaitReturn := 0

/-- The command line built from `cfgRoundTrip` on native Linux. -/
def clRoundTrip : List String :=
  ["veracrypt", "-t", "--keyfiles=None", "--password=hunter2", "--pim=None",
   "--protect-hidden=None", "--slot=2", "/dev/sda1", "/media/veracrypt2"]

/-- A configuration requesting legacy TrueCrypt mode with an ordinary
partition path. -/
def cfgTcLinux : Config :=
  [("use_truecrypt", "true"), ("drive_partition", "/dev/sda1")]

/-- The command line built from `cfgTcLinux` on native Linux. -/
def clTcLinux : List String :=
  ["veracrypt", "-t", "--keyfiles=None", "-tc", "--password=None", "--pim=None",
   "--protect-hidden=None", "--slot=1", "/dev/sda1", "/media/veracrypt1"]

/-- The command line built from the empty configuration on `win32`. -/
def clWinEmpty : List String :=
  ["None", "veracrypt", "-t", "-m=nokernelcrypto", "--keyfiles=None",
   "--password=None", "--pim=None", "--protect-hidden=None", "--slot=1", "None",
   "/mnt/wsl/PHYSICALDRIVENone"]

/-- A configuration in which only `keyfile_path` (of the three optional
volume keys) is absent. -/
def cfgKfAbsent : Config :=
  [("drive_partition", "/dev/sda1"), ("volume_password", "pw"),
   ("personal_iterations_multiplier", "5"), ("using_hidden_partition", "yes")]

/-- The command line built from `cfgKfAbsent` on native Linux. -/
def clKfAbsent : List String :=
  ["veracrypt", "-t", "--keyfiles=None", "--password=pw", "--pim=5",
   "--protect-hidden=yes", "--slot=1", "/dev/sda1", "/media/veracrypt1"]

/-- A configuration in which only `personal_iterations_multiplier` is
absent. -/
def cfgPimAbsent : Config :=
  [("drive_partition", "/dev/sda1"), ("volume_password", "pw"),
   ("keyfile_path", "/kf"), ("using_hidden_partition", "yes")]

/-- The command line built from `cfgPimAbsent` on native Linux. -/
def clPimAbsent : List String :=
  ["veracrypt", "-t", "--keyfiles=/kf", "--password=pw", "--pim=None",
   "--protect-hidden=yes", "--slot=1", "/dev/sda1", "/media/veracrypt1"]

/-- A configuration in which only `using_hidden_partition` is absent. -/
def cfgHidAbsent : Config :=
  [("drive_partition", "/dev/sda1"), ("volume_password", "pw"),
   ("keyfile_path", "/kf"), ("personal_iterations_multiplier", "5")]

/-- The command line built from `cfgHidAbsent` on native Linux. -/
def clHidAbsent : List String :=
  ["veracrypt", "-t", "--keyfiles=/kf", "--password=pw", "--pim=5",
   "--protect-hidden=None", "--slot=1", "/dev/sda1", "/media/veracrypt1"]

/-! Helper lemmas about the embedding. -/

lemma take_two_append (l m : List Char) (c₁ c₂ : Char)
    (h : List.take 2 l = [c₁, c₂]) : List.take 2 (l ++ m) = [c₁, c₂] := by
  cases l with
  | nil => simp at h
  | cons a l' =>
    cases l' with
    | nil => simp at h
    | cons b rest => exact h

lemma append_ne_of_take_two (s a t : String) (c₁ c₂ : Char)
    (hs : List.take 2 s.data = [c₁, c₂]) (ht : List.take 2 t.data ≠ [c₁, c₂]) :
    s ++ a ≠ t := by
  intro he
  apply ht
  rw [← he, String.data_append]
  exact take_two_append _ _ _ _ hs

lemma cfgGet_middle_ne (key x v w : String) (pre post : Config) (hk : key ≠ x) :
    cfgGet (pre ++ (x, v) :: post) key = cfgGet (pre ++ (x, w) :: post) key := by
  have hx : ∀ r : String, (((x, r) : String × String).1 == key) = false := fun r =>
    beq_eq_false_iff_ne.mpr (fun h => hk h.symm)
  unfold cfgGet
  rw [List.find?_append, List.find?_append, List.find?_cons, List.find?_cons,
    hx v]

lemma cfgGet_middle_self (x v : String) (pre post : Config)
    (hx : x ∉ List.map Prod.fst pre) :
    cfgGet (pre ++ (x, v) :: post) x = some v := by
  have h1 : List.find? (fun e => e.1 == x) pre = none := by
    rw [List.find?_eq_none]
    intro e he hbeq
    exact hx (List.mem_map.mpr ⟨e, he, eq_of_beq hbeq⟩)
  unfold cfgGet
  rw [List.find?_append, h1, List.find?_cons]
  simp

lemma cfgSet_middle (key value x : String) (pre post : Config) (hk : key ≠ x)
    (hx : x ∉ List.map Prod.fst pre) :
    ∃ front back : Config, x ∉ List.map Prod.fst front ∧
      ∀ r, cfgSet (pre ++ (x, r) :: post) key value = front ++ (x, r) :: back := by
  have hmid : ∀ r : String, (((x, r) : String × String).1 == key) = false := fun r =>
    beq_eq_false_iff_ne.mpr (fun h => hk h.symm)
  have hfind : ∀ r : String,
      List.find? (fun e => e.1 == key) (pre ++ (x, r) :: post) =
        (List.find? (fun e => e.1 == key) pre).or
          (List.find? (fun e => e.1 == key) post) := by
    intro r
    rw [List.find?_append, List.find?_cons, hmid r]
  by_cases hc : ((List.find? (fun e => e.1 == key) pre).or
      (List.find? (fun e => e.1 == key) post)).isSome
  · refine ⟨List.map (fun e => if e.1 == key then (key, value) else e) pre,
      List.map (fun e => if e.1 == key then (key, value) else e) post, ?_, ?_⟩
    · intro hmem
      obtain ⟨e, he, hfst⟩ := List.mem_map.mp hmem
      obtain ⟨e', he', hfe⟩ := List.mem_map.mp he
      by_cases hcase : (e'.1 == key) = true
      · rw [if_pos hcase] at hfe
        rw [← hfe] at hfst
        exact hk hfst
      · rw [if_neg hcase] at hfe
        rw [← hfe] at hfst
        exact hx (List.mem_map.mpr ⟨e', he', hfst⟩)
    · intro r
      unfold cfgSet
      rw [hfind r, if_pos hc, List.map_append, List.map_cons, hmid r]
      simp
  · refine ⟨pre, post ++ [(key, value)], hx, ?_⟩
    intro r
    unfold cfgSet
    rw [hfind r, if_neg hc]
    simp

lemma pyTruthy_some_ne (p : String) (hp : p ≠ "") : pyTruthy (some p) = true := by
  simp [pyTruthy, hp]

lemma mem_pyInsert (x y : α) (n : Nat) (l : List α) (hx : x ∈ l) :
    x ∈ pyInsert y n l := by
  induction l generalizing n with
  | nil => cases hx
  | cons a t ih =>
    cases n with
    | zero => exact List.mem_cons_of_mem _ hx
    | succ m =>
      rcases List.mem_cons.mp hx with h | h
      · exact h ▸ List.mem_cons_self _ _
      · exact List.mem_cons_of_mem _ (ih m h)

lemma mem_build_shape (x w mnt media : String) (b : List String) (tc : Bool)
    (c₁ c₂ : Prop) [Decidable c₁] [Decidable c₂] (hx : x ∈ b) :
    x ∈ (if c₂ then
          List.append
            (if c₁ then
              List.append
                (pyInsert "-m=nokernelcrypto" 3
                  (pyInsert w 0 (if tc then pyInsert "-tc" 3 b else b)))
                [mnt]
            else (if tc then pyInsert "-tc" 3 b else b))
            [media]
        else
          (if c₁ then
            List.append
              (pyInsert "-m=nokernelcrypto" 3
                (pyInsert w 0 (if tc then pyInsert "-tc" 3 b else b)))
              [mnt]
          else (if tc then pyInsert "-tc" 3 b else b))) := by
  have hT : x ∈ (if tc then pyInsert "-tc" 3 b else b) := by
    split
    · exact mem_pyInsert _ _ _ _ hx
    · exact hx
  have hW : x ∈ (if c₁ then
      List.append
        (pyInsert "-m=nokernelcrypto" 3
          (pyInsert w 0 (if tc then pyInsert "-tc" 3 b else b)))
        [mnt]
    else (if tc then pyInsert "-tc" 3 b else b)) := by
    split
    · exact List.mem_append_left _ (mem_pyInsert _ _ _ _ (mem_pyInsert _ _ _ _ hT))
    · exact hT
  split
  · exact List.mem_append_left _ hW
  · exact hW

lemma pyMain_admin_false (e : Env) (h : have_admin_rights e = false) :
    pyMain e =
      { outcome := MainOutcome.exit (-1)
        logs := adminErrLogs
        configLoaded := false
        events := [Event.pause] } := by
  unfold pyMain
  rw [h]
  rfl

lemma pyMain_load_error (e : Env) (msg : String)
    (h : have_admin_rights e = true)
    (hl : load_config_file e.parsedFile = Except.error msg) :
    pyMain e =
      { outcome := MainOutcome.exit (-2)
        logs := loadLogLine e.configPathName :: configFileErrLogLines msg
        configLoaded := true
        events := [Event.pause] } := by
  unfold pyMain
  rw [h, hl]
  rfl

lemma pyMain_validate_error (e : Env) (cfg : Config) (msg : String)
    (evs : List RunEvent)
    (h : have_admin_rights e = true)
    (hl : load_config_file e.parsedFile = Except.ok cfg)
    (hv : validate_config_data e.plat e.world cfg = (Except.error msg, evs)) :
    pyMain e =
      { outcome := MainOutcome.exit (-2)
        logs := loadLogLine e.configPathName ::
          List.append
            (List.map (fun kv => (LogLevel.debug, keyLogLine kv.1 kv.2)) cfg)
            (configFileErrLogLines msg)
        configLoaded := true
        events := List.append (List.map Event.runProc evs) [Event.pause] } := by
  simp [pyMain, h, hl, hv]

lemma pyMain_launch (e : Env) (cfg cfg2 : Config) (evs : List RunEvent)
    (cl : List String)
    (h : have_admin_rights e = true)
    (hl : load_config_file e.parsedFile = Except.ok cfg)
    (hv : validate_config_data e.plat e.world cfg = (Except.ok cfg2, evs))
    (hb : build_veracrypt_cmdline e.plat cfg2 = Except.ok cl) :
    pyMain e =
      { outcome := MainOutcome.exit 0
        logs := loadLogLine e.configPathName ::
          List.append
            (List.map (fun kv => (LogLevel.debug, keyLogLine kv.1 kv.2)) cfg)
            (List.append (mainWinLogs e cfg2)
              [mountLogLine (cl.getD (cl.length - 2) "")
                (cl.getD (cl.length - 1) "")])
        configLoaded := true
        events := List.append (List.map Event.runProc evs)
          (List.append (mainWinEvents e cfg2)
            [Event.popen (String.intercalate " " cl) true,
             Event.waitProc e.veracryptWaitReturn]) } := by
  simp [pyMain, h, hl, hv, hb]

lemma validateRest_ni (plat : String) (w : World) (pre post : Config)
    (p q : String) (evs : List RunEvent)
    (hpre : "volume_password" ∉ List.map Prod.fst pre)
    (hp : p ≠ "") (hq : q ≠ "") :
    (∃ msg evs2,
      validateRest plat w (pre ++ ("volume_password", p) :: post) evs =
        (Except.error msg, evs2) ∧
      validateRest plat w (pre ++ ("volume_password", q) :: post) evs =
        (Except.error msg, evs2)) ∨
    (validateRest plat w (pre ++ ("volume_password", p) :: post) evs =
      (Except.ok (pre ++ ("volume_password", p) :: post), evs) ∧
     validateRest plat w (pre ++ ("volume_password", q) :: post) evs =
      (Except.ok (pre ++ ("volume_password", q) :: post), evs)) := by
  have hdp := cfgGet_middle_ne "drive_partition" "volume_password" p q pre post
    (by decide)
  have hwsl := cfgGet_middle_ne "wsl_exe" "volume_password" p q pre post
    (by decide)
  have hdn := cfgGet_middle_ne "physical_drive_num" "volume_password" p q pre post
    (by decide)
  have hvp_p := cfgGet_middle_self "volume_password" p pre post hpre
  have hvp_q := cfgGet_middle_self "volume_password" q pre post hpre
  unfold validateRest
  rw [hdp, hwsl, hdn, hvp_p, hvp_q, pyTruthy_some_ne p hp, pyTruthy_some_ne q hq]
  cases h1 : pyTruthy (cfgGet (pre ++ ("volume_password", q) :: post)
      "drive_partition") with
  | false =>
    by_cases h2 : (plat == "win32") = true
    · simp only [if_pos h2]
      exact Or.inl ⟨_, _, rfl, rfl⟩
    · simp only [if_neg h2]
      exact Or.inl ⟨_, _, rfl, rfl⟩
  | true =>
    exact Or.inr ⟨rfl, rfl⟩

lemma validate_ni (plat : String) (w : World) (pre post : Config) (p q : String)
    (hpre : "volume_password" ∉ List.map Prod.fst pre)
    (hp : p ≠ "") (hq : q ≠ "") :
    (∃ msg evs2,
      validate_config_data plat w (pre ++ ("volume_password", p) :: post) =
        (Except.error msg, evs2) ∧
      validate_config_data plat w (pre ++ ("volume_password", q) :: post) =
        (Except.error msg, evs2)) ∨
    (∃ front back : Config, "volume_password" ∉ List.map Prod.fst front ∧
      validate_config_data plat w (pre ++ ("volume_password", p) :: post) =
        (Except.ok (front ++ ("volume_password", p) :: back), []) ∧
      validate_config_data plat w (pre ++ ("volume_password", q) :: post) =
        (Except.ok (front ++ ("volume_password", q) :: back), [])) := by
  unfold validate_config_data
  by_cases hw : (plat == "win32") = true
  · simp only [if_pos hw]
    have hroot := cfgGet_middle_ne "wsl_root" "volume_password" p q pre post
      (by decide)
    rw [hroot]
    cases h1 : pyTruthy (cfgGet (pre ++ ("volume_password", q) :: post)
        "wsl_root") with
    | false => exact Or.inl ⟨_, _, rfl, rfl⟩
    | true =>
      have hwsl := cfgGet_middle_ne "wsl_exe" "volume_password" p q pre post
        (by decide)
      rw [hwsl]
      obtain ⟨front, back, hfr, hset⟩ := cfgSet_middle "wsl_exe"
        ((cfgGet (pre ++ ("volume_password", q) :: post) "wsl_exe").getD "wsl")
        "volume_password" pre post (by decide) hpre
      rw [hset p, hset q]
      cases h2 : (w.whichResult ((cfgGet (pre ++ ("volume_password", q) :: post)
          "wsl_exe").getD "wsl")).isNone with
      | true => exact Or.inl ⟨_, _, rfl, rfl⟩
      | false =>
        have hdn := cfgGet_middle_ne "physical_drive_num" "volume_password" p q
          front back (by decide)
        rw [hdn]
        cases h3 : pyTruthy (cfgGet (front ++ ("volume_password", q) :: back)
            "physical_drive_num") with
        | false => exact Or.inl ⟨_, _, rfl, rfl⟩
        | true =>
          rcases validateRest_ni plat w front back p q [] hfr hp hq with
            ⟨msg, evs2, hP, hQ⟩ | ⟨hP, hQ⟩
          · exact Or.inl ⟨msg, evs2, hP, hQ⟩
          · exact Or.inr ⟨front, back, hfr, hP, hQ⟩
  · simp only [if_neg hw]
    rcases validateRest_ni plat w pre post p q [] hpre hp hq with
      ⟨msg, evs2, hP, hQ⟩ | ⟨hP, hQ⟩
    · exact Or.inl ⟨msg, evs2, hP, hQ⟩
    · exact Or.inr ⟨pre, post, hpre, hP, hQ⟩

lemma build_ni (plat : String) (front back : Config) (p q : String)
    (hfr : "volume_password" ∉ List.map Prod.fst front) :
    (build_veracrypt_cmdline plat (front ++ ("volume_password", p) :: back) =
        Except.error () ∧
     build_veracrypt_cmdline plat (front ++ ("volume_password", q) :: back) =
        Except.error ()) ∨
    (∃ cl₁ cl₂ : List String,
      build_veracrypt_cmdline plat (front ++ ("volume_password", p) :: back) =
        Except.ok cl₁ ∧
      build_veracrypt_cmdline plat (front ++ ("volume_password", q) :: back) =
        Except.ok cl₂ ∧
      cl₁.length = cl₂.length ∧
      cl₁.getD (cl₁.length - 2) "" = cl₂.getD (cl₂.length - 2) "" ∧
      cl₁.getD (cl₁.length - 1) "" = cl₂.getD (cl₂.length - 1) "") := by
  have hU : getbooleanTruthy (front ++ ("volume_password", p) :: back)
        "use_truecrypt" =
      getbooleanTruthy (front ++ ("volume_password", q) :: back)
        "use_truecrypt" := by
    unfold getbooleanTruthy
    rw [cfgGet_middle_ne "use_truecrypt" "volume_password" p q front back
      (by decide)]
  have hslot := cfgGet_middle_ne "slot_num" "volume_password" p q front back
    (by decide)
  have hkf := cfgGet_middle_ne "keyfile_path" "volume_password" p q front back
    (by decide)
  have hpim := cfgGet_middle_ne "personal_iterations_multiplier"
    "volume_password" p q front back (by decide)
  have hhid := cfgGet_middle_ne "using_hidden_partition" "volume_password" p q
    front back (by decide)
  have hdp := cfgGet_middle_ne "drive_partition" "volume_password" p q front back
    (by decide)
  have hdn := cfgGet_middle_ne "physical_drive_num" "volume_password" p q
    front back (by decide)
  have hwsl := cfgGet_middle_ne "wsl_exe" "volume_password" p q front back
    (by decide)
  have hvp_p := cfgGet_middle_self "volume_password" p front back hfr
  have hvp_q := cfgGet_middle_self "volume_password" q front back hfr
  unfold build_veracrypt_cmdline
  rw [hU]
  cases hB : getbooleanTruthy (front ++ ("volume_password", q) :: back)
      "use_truecrypt" with
  | error e => exact Or.inl ⟨rfl, rfl⟩
  | ok tc =>
    rw [hslot, hkf, hpim, hhid, hdp, hdn, hwsl, hvp_p, hvp_q]
    by_cases hw : plat = "win32"
    · subst hw
      cases tc with
      | true => exact Or.inr ⟨_, _, rfl, rfl, rfl, rfl, rfl⟩
      | false => exact Or.inr ⟨_, _, rfl, rfl, rfl, rfl, rfl⟩
    · by_cases hl2 : plat = "linux"
      · subst hl2
        cases tc with
        | true => exact Or.inr ⟨_, _, rfl, rfl, rfl, rfl, rfl⟩
        | false => exact Or.inr ⟨_, _, rfl, rfl, rfl, rfl, rfl⟩
      · rw [beq_eq_false_iff_ne.mpr hw, beq_eq_false_iff_ne.mpr hl2]
        cases tc with
        | true => exact Or.inr ⟨_, _, rfl, rfl, rfl, rfl, rfl⟩
        | false => exact Or.inr ⟨_, _, rfl, rfl, rfl, rfl, rfl⟩

lemma pyMain_build_error (e : Env) (cfg cfg2 : Config) (evs : List RunEvent)
    (h : have_admin_rights e = true)
    (hl : load_config_file e.parsedFile = Except.ok cfg)
    (hv : validate_config_data e.plat e.world cfg = (Except.ok cfg2, evs))
    (hb : build_veracrypt_cmdline e.plat cfg2 = Except.error ()) :
    pyMain e =
      { outcome := MainOutcome.unhandledValueError
        logs := loadLogLine e.configPathName ::
          List.append
            (List.map (fun kv => (LogLevel.debug, keyLogLine kv.1 kv.2)) cfg)
            (mainWinLogs e cfg2)
        configLoaded := true
        events := List.append (List.map Event.runProc evs) (mainWinEvents e cfg2) } := by
  simp [pyMain, h, hl, hv, hb]

lemma mainWinLogs_ni (e₁ e₂ : Env) (front back : Config) (p q : String)
    (hplat : e₁.plat = e₂.plat) (hpx : e₁.pathExists = e₂.pathExists) :
    mainWinLogs e₁ (front ++ ("volume_password", p) :: back) =
      mainWinLogs e₂ (front ++ ("volume_password", q) :: back) := by
  unfold mainWinLogs winHostMountPoint
  rw [hplat, hpx,
    cfgGet_middle_ne "physical_drive_num" "volume_password" p q front back
      (by decide),
    cfgGet_middle_ne "wsl_root" "volume_password" p q front back (by decide)]

lemma debugLogs_ni (pre post : Config) (p q : String) :
    List.map (fun kv => ((LogLevel.debug, keyLogLine kv.1 kv.2) : LogLevel × String))
      (pre ++ ("volume_password", p) :: post) =
    List.map (fun kv => (LogLevel.debug, keyLogLine kv.1 kv.2))
      (pre ++ ("volume_password", q) :: post) := by
  rw [List.map_append, List.map_append]
  congr 1

lemma find?_map_setter (config_data : Config) (k v key : String) (hk : key ≠ k) :
    List.find? (fun e => e.1 == key)
      (List.map (fun e => if e.1 == k then (k, v) else e) config_data) =
    List.find? (fun e => e.1 == key) config_data := by
  induction config_data with
  | nil => rfl
  | cons hd tl ih =>
    rw [List.map_cons, List.find?_cons, List.find?_cons]
    by_cases hcase : (hd.1 == k) = true
    · have h1 : (((k, v) : String × String).1 == key) = false :=
        beq_eq_false_iff_ne.mpr (fun h => hk h.symm)
      have h2 : (hd.1 == key) = false := by
        rw [beq_eq_false_iff_ne]
        intro h
        exact hk (h ▸ eq_of_beq hcase)
      rw [if_pos hcase, h1, h2]
      exact ih
    · have hfalse : (hd.1 == k) = false := by
        cases h : (hd.1 == k) with
        | true => exact absurd h hcase
        | false => rfl
      rw [if_neg hcase]
      cases hkey : (hd.1 == key) with
      | true => rfl
      | false => exact ih

lemma cfgGet_cfgSet_ne (config_data : Config) (k v key : String) (hk : key ≠ k) :
    cfgGet (cfgSet config_data k v) key = cfgGet config_data key := by
  unfold cfgSet
  split
  · unfold cfgGet
    rw [find?_map_setter config_data k v key hk]
  · unfold cfgGet
    rw [List.append_eq, List.find?_append]
    have h1 : List.find? (fun e => e.1 == key) [(k, v)] = none := by
      have : (((k, v) : String × String).1 == key) = false :=
        beq_eq_false_iff_ne.mpr (fun h => hk h.symm)
      rw [List.find?_cons, this]
      rfl
    rw [h1, Option.or_none]


lemma validateRest_preserves (plat : String) (w : World) (config_data : Config)
    (evs : List RunEvent) (cfg' : Config) (evs' : List RunEvent) (key : String)
    (h : validateRest plat w config_data evs = (Except.ok cfg', evs'))
    (hk : key ≠ "volume_password") :
    cfgGet cfg' key = cfgGet config_data key := by
  unfold validateRest at h
  split at h
  · split at h <;> simp at h
  · split at h
    · simp only [Prod.mk.injEq, Except.ok.injEq] at h
      rw [← h.1]
      exact cfgGet_cfgSet_ne config_data "volume_password" w.getpassResult key hk
    · simp only [Prod.mk.injEq, Except.ok.injEq] at h
      rw [← h.1]

lemma validate_preserves (plat : String) (w : World) (config_data cfg' : Config)
    (evs : List RunEvent) (key : String)
    (h : validate_config_data plat w config_data = (Except.ok cfg', evs))
    (hk1 : key ≠ "volume_password") (hk2 : key ≠ "wsl_exe") :
    cfgGet cfg' key = cfgGet config_data key := by
  unfold validate_config_data at h
  split at h
  · split at h
    · simp at h
    · dsimp only at h
      split at h
      · simp at h
      · split at h
        · simp at h
        · rw [validateRest_preserves plat w _ [] cfg' evs key h hk1]
          exact cfgGet_cfgSet_ne config_data "wsl_exe" _ key hk2
  · exact validateRest_preserves plat w config_data [] cfg' evs key h hk1

lemma cfgGet_drop_ne (key x v : String) (pre post : Config) (hk : key ≠ x) :
    cfgGet (pre ++ (x, v) :: post) key = cfgGet (pre ++ post) key := by
  have hx : (((x, v) : String × String).1 == key) = false :=
    beq_eq_false_iff_ne.mpr (fun h => hk h.symm)
  unfold cfgGet
  rw [List.find?_append, List.find?_append, List.find?_cons, hx]

lemma cfgSet_drop (key value x v : String) (pre post : Config) (hk : key ≠ x) :
    ∃ front back : Config,
      cfgSet (pre ++ (x, v) :: post) key value = front ++ (x, v) :: back ∧
      cfgSet (pre ++ post) key value = front ++ back := by
  have hmid : (((x, v) : String × String).1 == key) = false :=
    beq_eq_false_iff_ne.mpr (fun h => hk h.symm)
  have hfind : List.find? (fun e => e.1 == key) (pre ++ (x, v) :: post) =
      (List.find? (fun e => e.1 == key) pre).or
        (List.find? (fun e => e.1 == key) post) := by
    rw [List.find?_append, List.find?_cons, hmid]
  have hfind2 : List.find? (fun e => e.1 == key) (pre ++ post) =
      (List.find? (fun e => e.1 == key) pre).or
        (List.find? (fun e => e.1 == key) post) :=
    List.find?_append
  by_cases hc : ((List.find? (fun e => e.1 == key) pre).or
      (List.find? (fun e => e.1 == key) post)).isSome
  · refine ⟨List.map (fun e => if e.1 == key then (key, value) else e) pre,
      List.map (fun e => if e.1 == key then (key, value) else e) post, ?_, ?_⟩
    · unfold cfgSet
      rw [hfind, if_pos hc, List.map_append, List.map_cons, hmid]
      rfl
    · unfold cfgSet
      rw [hfind2, if_pos hc, List.map_append]
  · refine ⟨pre, post ++ [(key, value)], ?_, ?_⟩
    · unfold cfgSet
      rw [hfind, if_neg hc]
      simp
    · unfold cfgSet
      rw [hfind2, if_neg hc]
      simp

lemma validateRest_drop (plat : String) (w : World) (pre post : Config)
    (x v : String) (evs : List RunEvent)
    (hx1 : x ≠ "drive_partition") (hx2 : x ≠ "volume_password")
    (hx3 : x ≠ "wsl_exe") (hx4 : x ≠ "physical_drive_num") :
    (∃ msg evs2,
      validateRest plat w (pre ++ (x, v) :: post) evs = (Except.error msg, evs2) ∧
      validateRest plat w (pre ++ post) evs = (Except.error msg, evs2)) ∨
    (∃ front back : Config,
      validateRest plat w (pre ++ (x, v) :: post) evs =
        (Except.ok (front ++ (x, v) :: back), evs) ∧
      validateRest plat w (pre ++ post) evs = (Except.ok (front ++ back), evs)) := by
  have hdp := cfgGet_drop_ne "drive_partition" x v pre post (Ne.symm hx1)
  have hwsl := cfgGet_drop_ne "wsl_exe" x v pre post (Ne.symm hx3)
  have hdn := cfgGet_drop_ne "physical_drive_num" x v pre post (Ne.symm hx4)
  have hvp := cfgGet_drop_ne "volume_password" x v pre post (Ne.symm hx2)
  unfold validateRest
  rw [hdp, hwsl, hdn, hvp]
  cases h1 : pyTruthy (cfgGet (pre ++ post) "drive_partition") with
  | false =>
    by_cases h2 : (plat == "win32") = true
    · simp only [if_pos h2]
      exact Or.inl ⟨_, _, rfl, rfl⟩
    · simp only [if_neg h2]
      exact Or.inl ⟨_, _, rfl, rfl⟩
  | true =>
    cases h3 : pyTruthy (cfgGet (pre ++ post) "volume_password") with
    | false =>
      obtain ⟨front, back, hA, hB⟩ :=
        cfgSet_drop "volume_password" w.getpassResult x v pre post (Ne.symm hx2)
      rw [hA, hB]
      exact Or.inr ⟨front, back, rfl, rfl⟩
    | true =>
      exact Or.inr ⟨pre, post, rfl, rfl⟩

lemma validate_drop (plat : String) (w : World) (pre post : Config)
    (x v : String)
    (hx1 : x ≠ "drive_partition") (hx2 : x ≠ "volume_password")
    (hx3 : x ≠ "wsl_exe") (hx4 : x ≠ "physical_drive_num")
    (hx5 : x ≠ "wsl_root") :
    (∃ msg evs2,
      validate_config_data plat w (pre ++ (x, v) :: post) =
        (Except.error msg, evs2) ∧
      validate_config_data plat w (pre ++ post) = (Except.error msg, evs2)) ∨
    (∃ front back : Config,
      validate_config_data plat w (pre ++ (x, v) :: post) =
        (Except.ok (front ++ (x, v) :: back), []) ∧
      validate_config_data plat w (pre ++ post) = (Except.ok (front ++ back), [])) := by
  unfold validate_config_data
  by_cases hw : (plat == "win32") = true
  · simp only [if_pos hw]
    have hroot := cfgGet_drop_ne "wsl_root" x v pre post (Ne.symm hx5)
    rw [hroot]
    cases h1 : pyTruthy (cfgGet (pre ++ post) "wsl_root") with
    | false => exact Or.inl ⟨_, _, rfl, rfl⟩
    | true =>
      have hwsl := cfgGet_drop_ne "wsl_exe" x v pre post (Ne.symm hx3)
      rw [hwsl]
      obtain ⟨front, back, hA, hB⟩ := cfgSet_drop "wsl_exe"
        ((cfgGet (pre ++ post) "wsl_exe").getD "wsl") x v pre post (Ne.symm hx3)
      rw [hA, hB]
      cases h2 : (w.whichResult ((cfgGet (pre ++ post) "wsl_exe").getD
          "wsl")).isNone with
      | true => exact Or.inl ⟨_, _, rfl, rfl⟩
      | false =>
        have hdn := cfgGet_drop_ne "physical_drive_num" x v front back
          (Ne.symm hx4)
        rw [hdn]
        cases h3 : pyTruthy (cfgGet (front ++ back) "physical_drive_num") with
        | false => exact Or.inl ⟨_, _, rfl, rfl⟩
        | true =>
          rcases validateRest_drop plat w front back x v [] hx1 hx2 hx3 hx4 with
            ⟨msg, evs2, hP, hQ⟩ | ⟨f2, b2, hP, hQ⟩
          · exact Or.inl ⟨msg, evs2, hP, hQ⟩
          · exact Or.inr ⟨f2, b2, hP, hQ⟩
  · simp only [if_neg hw]
    rcases validateRest_drop plat w pre post x v [] hx1 hx2 hx3 hx4 with
      ⟨msg, evs2, hP, hQ⟩ | ⟨f2, b2, hP, hQ⟩
    · exact Or.inl ⟨msg, evs2, hP, hQ⟩
    · exact Or.inr ⟨f2, b2, hP, hQ⟩

/-! Claim theorems. -/

/-- C2: loading a configuration file whose section `Veracrypt` contains
`drive_partition=/dev/sda1`, `volume_password=hunter2` and `slot_num=2`,
then building the command line from the loaded mapping on native Linux,
yields a token sequence whose appended mount point is `/media/veracrypt2`
and which contains the tokens `--password=hunter2` and `--slot=2`. -/
theorem c2_roundtrip :
    load_config_file iniRoundTrip = Except.ok cfgRoundTrip ∧
    build_veracrypt_cmdline "linux" cfgRoundTrip =
      Except.ok ["veracrypt", "-t", "--keyfiles=None", "--password=hunter2",
        "--pim=None", "--protect-hidden=None", "--slot=2", "/dev/sda1",
        "/media/veracrypt2"] ∧
    List.getLast? ["veracrypt", "-t", "--keyfiles=None", "--password=hunter2",
        "--pim=None", "--protect-hidden=None", "--slot=2", "/dev/sda1",
        "/media/veracrypt2"] = some "/media/veracrypt2" ∧
    "--password=hunter2" ∈ (["veracrypt", "-t", "--keyfiles=None",
        "--password=hunter2", "--pim=None", "--protect-hidden=None", "--slot=2",
        "/dev/sda1", "/media/veracrypt2"] : List String) ∧
    "--slot=2" ∈ (["veracrypt", "-t", "--keyfiles=None", "--password=hunter2",
        "--pim=None", "--protect-hidden=None", "--slot=2", "/dev/sda1",
        "/media/veracrypt2"] : List String) :=
  ⟨rfl, rfl, rfl, by decide, by decide⟩

/-- C9: for every drive number and WSL executable path,
`mount_physical_drive` returns the spawned process's `CompletedProcess`
without raising on a nonzero exit status (its `run` call passes no
`check=True`), and two successive invocations with the same drive index,
in possibly different world states, both return rather than raise. -/
theorem c9_mount_passthrough (w₁ w₂ : World) (drive_num wsl_exe : String) :
    mount_physical_drive w₁ drive_num wsl_exe =
      Except.ok (w₁.runResult
        [wsl_exe, "--mount", "\\\\.\\" ++ ("PHYSICALDRIVE" ++ drive_num), "--bare"]) ∧
    mount_physical_drive_twice w₁ w₂ drive_num wsl_exe =
      (Except.ok (w₁.runResult
         [wsl_exe, "--mount", "\\\\.\\" ++ ("PHYSICALDRIVE" ++ drive_num), "--bare"]),
       Except.ok (w₂.runResult
         [wsl_exe, "--mount", "\\\\.\\" ++ ("PHYSICALDRIVE" ++ drive_num), "--bare"])) := by
  constructor <;>
    simp [mount_physical_drive, mount_physical_drive_twice, pyRun, mountDriveArgv,
      build_physical_drive_name]

/-- C3 counterexample: on the native Linux path with `use_truecrypt` true,
the token `-m=nokernelcrypto` can appear in the output of
`build_veracrypt_cmdline` - namely when the configured `drive_partition`
value is itself that literal string, which loading and validation both
accept. -/
theorem c3_counterexample :
    build_veracrypt_cmdline "linux" cfgFlagPartition =
      Except.ok ["veracrypt", "-t", "--keyfiles=None", "-tc", "--password=None",
        "--pim=None", "--protect-hidden=None", "--slot=1", "-m=nokernelcrypto",
        "/media/veracrypt1"] ∧
    "-m=nokernelcrypto" ∈ (["veracrypt", "-t", "--keyfiles=None", "-tc",
        "--password=None", "--pim=None", "--protect-hidden=None", "--slot=1",
        "-m=nokernelcrypto", "/media/veracrypt1"] : List String) :=
  ⟨rfl, by decide⟩

/-- C5 counterexample: the resolved `volume_password` value can appear in a
log line emitted by `main` - namely when it coincides with the configured
`drive_partition` value, which the final info line prints in cleartext. -/
theorem c5_counterexample :
    load_config_file envPwEqPartition.parsedFile =
      Except.ok [("drive_partition", "/dev/sda1"), ("volume_password", "/dev/sda1")] ∧
    List.any (pyMain envPwEqPartition).logs
      (fun ln => strContains ln.2 "/dev/sda1") = true :=
  ⟨rfl, by decide⟩

/-- C1: for every configuration containing the required keys
(`drive_partition`, `volume_password`, and on the `win32` path
`physical_drive_num` and `wsl_exe`), whenever `build_veracrypt_cmdline`
returns (with `use_truecrypt` unset or set to any parsable value), the
last two tokens of the result are, in order, the `drive_partition` value
and the computed mount point, and the sequence contains the token
`--password=` followed by exactly the configured password, on both
platform branches. -/
theorem c1_tail_and_password (plat : String) (config_data : Config)
    (dp pw dnum wexe : String) (cl : List String)
    (hplat : plat = "linux" ∨ plat = "win32")
    (hdp : cfgGet config_data "drive_partition" = some dp)
    (hpw : cfgGet config_data "volume_password" = some pw)
    (hwin : plat = "win32" →
      cfgGet config_data "physical_drive_num" = some dnum ∧
      cfgGet config_data "wsl_exe" = some wexe)
    (hbuild : build_veracrypt_cmdline plat config_data = Except.ok cl) :
    List.drop (cl.length - 2) cl =
      [dp, if plat == "win32" then "/mnt/wsl/" ++ build_physical_drive_name dnum
           else "/media/veracrypt" ++ (cfgGet config_data "slot_num").getD "1"] ∧
    ("--password=" ++ pw) ∈ cl := by
  cases hU : getbooleanTruthy config_data "use_truecrypt" with
  | error e =>
    unfold build_veracrypt_cmdline at hbuild
    rw [hU] at hbuild
    exact absurd hbuild (by simp)
  | ok tc =>
    unfold build_veracrypt_cmdline at hbuild
    rw [hU] at hbuild
    rcases hplat with h | h <;> subst h
    · have e1 : (("linux" : String) == "win32") = false := by decide
      have e2 : (("linux" : String) == "linux") = true := by decide
      simp only [e1, e2, if_false, if_true, Bool.false_eq_true, Bool.true_eq_false] at hbuild ⊢
      cases tc
      · simp only [if_neg, Bool.false_eq_true, not_false_iff, if_false] at hbuild
        injection hbuild with hcl
        subst hcl
        rw [hdp, hpw]
        exact ⟨rfl, by simp [pyStr]⟩
      · simp only [if_pos, pyInsert] at hbuild
        injection hbuild with hcl
        subst hcl
        rw [hdp, hpw]
        exact ⟨rfl, by simp [pyStr]⟩
    · have e1 : (("win32" : String) == "win32") = true := by decide
      have e2 : (("win32" : String) == "linux") = false := by decide
      obtain ⟨hdn, hwe⟩ := hwin rfl
      simp only [e1, e2, if_false, if_true, Bool.false_eq_true, Bool.true_eq_false] at hbuild ⊢
      cases tc
      · simp only [if_neg, Bool.false_eq_true, not_false_iff, if_false, pyInsert] at hbuild
        injection hbuild with hcl
        subst hcl
        rw [hdp, hpw, hdn]
        exact ⟨rfl, by simp [pyStr]⟩
      · simp only [if_pos, pyInsert] at hbuild
        injection hbuild with hcl
        subst hcl
        rw [hdp, hpw, hdn]
        exact ⟨rfl, by simp [pyStr]⟩

/-- C1 witness: the theorem applied to the concrete round-trip
configuration on Linux. -/
theorem c1_witness :
    List.drop (clRoundTrip.length - 2) clRoundTrip =
      ["/dev/sda1",
       if ("linux" : String) == "win32" then
         "/mnt/wsl/" ++ build_physical_drive_name "0"
       else "/media/veracrypt" ++ (cfgGet cfgRoundTrip "slot_num").getD "1"] ∧
    ("--password=" ++ "hunter2") ∈ clRoundTrip :=
  c1_tail_and_password "linux" cfgRoundTrip "/dev/sda1" "hunter2" "0" "wsl"
    clRoundTrip (Or.inl rfl) rfl rfl (fun h => absurd h (by decide)) rfl

/-- C3 (amended): for every configuration with `use_truecrypt` true, the
legacy flag `-tc` appears at index 3 of the native-Linux token sequence;
the flag `-m=nokernelcrypto` is never inserted on that path and so is
absent from the output provided the configured `drive_partition` value is
not itself that literal string (the partition is the one token passed
through verbatim); and on the `win32` path `-m=nokernelcrypto` sits at
index 3 of every built sequence. -/
theorem c3_truecrypt_flag (config_data : Config) (cl : List String)
    (htc : getbooleanTruthy config_data "use_truecrypt" = Except.ok true)
    (hbuild : build_veracrypt_cmdline "linux" config_data = Except.ok cl) :
    cl.getD 3 "" = "-tc" ∧
    (pyStr (cfgGet config_data "drive_partition") ≠ "-m=nokernelcrypto" →
      "-m=nokernelcrypto" ∉ cl) ∧
    (∀ config₂ cl₂, build_veracrypt_cmdline "win32" config₂ = Except.ok cl₂ →
      cl₂.getD 3 "" = "-m=nokernelcrypto") := by
  unfold build_veracrypt_cmdline at hbuild
  rw [htc] at hbuild
  replace hbuild :
      (Except.ok ["veracrypt", "-t",
        "--keyfiles=" ++ pyStr (cfgGet config_data "keyfile_path"), "-tc",
        "--password=" ++ pyStr (cfgGet config_data "volume_password"),
        "--pim=" ++ pyStr (cfgGet config_data "personal_iterations_multiplier"),
        "--protect-hidden=" ++ pyStr (cfgGet config_data "using_hidden_partition"),
        "--slot=" ++ (cfgGet config_data "slot_num").getD "1",
        pyStr (cfgGet config_data "drive_partition"),
        "/media/veracrypt" ++ (cfgGet config_data "slot_num").getD "1"]
        : Except Unit (List String)) = Except.ok cl := hbuild
  injection hbuild with hcl
  subst hcl
  refine ⟨rfl, ?_, ?_⟩
  · intro hne hmem
    simp only [List.mem_cons, List.not_mem_nil, or_false] at hmem
    rcases hmem with h | h | h | h | h | h | h | h | h | h
    · exact absurd h (by decide)
    · exact absurd h (by decide)
    · exact append_ne_of_take_two "--keyfiles=" _ _ '-' '-' (by decide) (by decide) h.symm
    · exact absurd h (by decide)
    · exact append_ne_of_take_two "--password=" _ _ '-' '-' (by decide) (by decide) h.symm
    · exact append_ne_of_take_two "--pim=" _ _ '-' '-' (by decide) (by decide) h.symm
    · exact append_ne_of_take_two "--protect-hidden=" _ _ '-' '-' (by decide) (by decide) h.symm
    · exact append_ne_of_take_two "--slot=" _ _ '-' '-' (by decide) (by decide) h.symm
    · exact hne h.symm
    · exact append_ne_of_take_two "/media/veracrypt" _ _ '/' 'm' (by decide) (by decide) h.symm
  · intro config₂ cl₂ hb2
    cases hU2 : getbooleanTruthy config₂ "use_truecrypt" with
    | error e =>
      unfold build_veracrypt_cmdline at hb2
      rw [hU2] at hb2
      exact absurd hb2 (by simp)
    | ok tc2 =>
      unfold build_veracrypt_cmdline at hb2
      rw [hU2] at hb2
      cases tc2
      · replace hb2 :
            (Except.ok [pyStr (cfgGet config₂ "wsl_exe"), "veracrypt", "-t",
              "-m=nokernelcrypto",
              "--keyfiles=" ++ pyStr (cfgGet config₂ "keyfile_path"),
              "--password=" ++ pyStr (cfgGet config₂ "volume_password"),
              "--pim=" ++ pyStr (cfgGet config₂ "personal_iterations_multiplier"),
              "--protect-hidden=" ++ pyStr (cfgGet config₂ "using_hidden_partition"),
              "--slot=" ++ (cfgGet config₂ "slot_num").getD "1",
              pyStr (cfgGet config₂ "drive_partition"),
              "/mnt/wsl/" ++ build_physical_drive_name
                (pyStr (cfgGet config₂ "physical_drive_num"))]
              : Except Unit (List String)) = Except.ok cl₂ := hb2
        injection hb2 with hcl2
        subst hcl2
        rfl
      · replace hb2 :
            (Except.ok [pyStr (cfgGet config₂ "wsl_exe"), "veracrypt", "-t",
              "-m=nokernelcrypto",
              "--keyfiles=" ++ pyStr (cfgGet config₂ "keyfile_path"), "-tc",
              "--password=" ++ pyStr (cfgGet config₂ "volume_password"),
              "--pim=" ++ pyStr (cfgGet config₂ "personal_iterations_multiplier"),
              "--protect-hidden=" ++ pyStr (cfgGet config₂ "using_hidden_partition"),
              "--slot=" ++ (cfgGet config₂ "slot_num").getD "1",
              pyStr (cfgGet config₂ "drive_partition"),
              "/mnt/wsl/" ++ build_physical_drive_name
                (pyStr (cfgGet config₂ "physical_drive_num"))]
              : Except Unit (List String)) = Except.ok cl₂ := hb2
        injection hb2 with hcl2
        subst hcl2
        rfl

/-- C3 witness: the amended theorem applied to `cfgTcLinux`, with the
`win32` conjunct instantiated at the empty configuration. -/
theorem c3_witness :
    clTcLinux.getD 3 "" = "-tc" ∧
    "-m=nokernelcrypto" ∉ clTcLinux ∧
    clWinEmpty.getD 3 "" = "-m=nokernelcrypto" :=
  have h := c3_truecrypt_flag cfgTcLinux clTcLinux rfl rfl
  ⟨h.1, h.2.1 (by decide), h.2.2 [] clWinEmpty rfl⟩

/-- C10: for every configuration in which any of `keyfile_path`,
`personal_iterations_multiplier`, or `using_hidden_partition` is absent,
`build_veracrypt_cmdline` emits the literal text `None` as that flag's
value (`--keyfiles=None`, `--pim=None`, `--protect-hidden=None`
respectively: the missing lookup yields `None`, which the f-string renders
as the text `None`), on every platform value; and validation never rejects
or defaults these keys - on every platform and world, a successful
`validate_config_data` preserves each of the three lookups unchanged, and
whether the key is present or absent does not alter validation's verdict
(same error message and spawns, or success either way) - so the `None`
tokens are passed verbatim to the external tool. -/
theorem c10_none_tokens :
    (∀ (plat : String) (config_data : Config) (cl : List String),
      cfgGet config_data "keyfile_path" = none →
      build_veracrypt_cmdline plat config_data = Except.ok cl →
      "--keyfiles=None" ∈ cl) ∧
    (∀ (plat : String) (config_data : Config) (cl : List String),
      cfgGet config_data "personal_iterations_multiplier" = none →
      build_veracrypt_cmdline plat config_data = Except.ok cl →
      "--pim=None" ∈ cl) ∧
    (∀ (plat : String) (config_data : Config) (cl : List String),
      cfgGet config_data "using_hidden_partition" = none →
      build_veracrypt_cmdline plat config_data = Except.ok cl →
      "--protect-hidden=None" ∈ cl) ∧
    (∀ (plat : String) (w : World) (config_data cfg' : Config)
      (evs : List RunEvent),
      validate_config_data plat w config_data = (Except.ok cfg', evs) →
      cfgGet cfg' "keyfile_path" = cfgGet config_data "keyfile_path" ∧
      cfgGet cfg' "personal_iterations_multiplier" =
        cfgGet config_data "personal_iterations_multiplier" ∧
      cfgGet cfg' "using_hidden_partition" =
        cfgGet config_data "using_hidden_partition") ∧
    (∀ x : String,
      x = "keyfile_path" ∨ x = "personal_iterations_multiplier" ∨
        x = "using_hidden_partition" →
      ∀ (plat : String) (w : World) (pre post : Config) (v : String),
      (∃ msg evs2,
        validate_config_data plat w (pre ++ (x, v) :: post) =
          (Except.error msg, evs2) ∧
        validate_config_data plat w (pre ++ post) = (Except.error msg, evs2)) ∨
      (∃ front back : Config,
        validate_config_data plat w (pre ++ (x, v) :: post) =
          (Except.ok (front ++ (x, v) :: back), []) ∧
        validate_config_data plat w (pre ++ post) =
          (Except.ok (front ++ back), []))) := by
  refine ⟨?_, ?_, ?_, ?_, ?_⟩
  · intro plat config_data cl hkf hbuild
    cases hU : getbooleanTruthy config_data "use_truecrypt" with
    | error e =>
      unfold build_veracrypt_cmdline at hbuild
      rw [hU] at hbuild
      exact absurd hbuild (by simp)
    | ok tc =>
      unfold build_veracrypt_cmdline at hbuild
      rw [hU] at hbuild
      injection hbuild with hcl
      subst hcl
      rw [hkf]
      exact mem_build_shape _ _ _ _ _ _ _ _
        (List.mem_cons_of_mem _ (List.mem_cons_of_mem _ (List.mem_cons_self _ _)))
  · intro plat config_data cl hpim hbuild
    cases hU : getbooleanTruthy config_data "use_truecrypt" with
    | error e =>
      unfold build_veracrypt_cmdline at hbuild
      rw [hU] at hbuild
      exact absurd hbuild (by simp)
    | ok tc =>
      unfold build_veracrypt_cmdline at hbuild
      rw [hU] at hbuild
      injection hbuild with hcl
      subst hcl
      rw [hpim]
      exact mem_build_shape _ _ _ _ _ _ _ _
        (List.mem_cons_of_mem _ (List.mem_cons_of_mem _ (List.mem_cons_of_mem _
          (List.mem_cons_of_mem _ (List.mem_cons_self _ _)))))
  · intro plat config_data cl hhid hbuild
    cases hU : getbooleanTruthy config_data "use_truecrypt" with
    | error e =>
      unfold build_veracrypt_cmdline at hbuild
      rw [hU] at hbuild
      exact absurd hbuild (by simp)
    | ok tc =>
      unfold build_veracrypt_cmdline at hbuild
      rw [hU] at hbuild
      injection hbuild with hcl
      subst hcl
      rw [hhid]
      exact mem_build_shape _ _ _ _ _ _ _ _
        (List.mem_cons_of_mem _ (List.mem_cons_of_mem _ (List.mem_cons_of_mem _
          (List.mem_cons_of_mem _ (List.mem_cons_of_mem _
            (List.mem_cons_self _ _))))))
  · intro plat w config_data cfg' evs hval
    exact ⟨validate_preserves plat w config_data cfg' evs "keyfile_path" hval
        (by decide) (by decide),
      validate_preserves plat w config_data cfg' evs
        "personal_iterations_multiplier" hval (by decide) (by decide),
      validate_preserves plat w config_data cfg' evs "using_hidden_partition"
        hval (by decide) (by decide)⟩
  · intro x hx plat w pre post v
    rcases hx with rfl | rfl | rfl <;>
      exact validate_drop plat w pre post _ v (by decide) (by decide)
        (by decide) (by decide) (by decide)

/-- C10 witness: the per-key token conjuncts each at a configuration
missing only that key; the preservation conjunct at a run whose password
was filled interactively; the verdict conjunct at a concrete
configuration with and without `keyfile_path`. -/
theorem c10_witness :
    "--keyfiles=None" ∈ clKfAbsent ∧
    "--pim=None" ∈ clPimAbsent ∧
    "--protect-hidden=None" ∈ clHidAbsent ∧
    (cfgGet [("drive_partition", "/dev/sda1"), ("volume_password", "prompted")]
        "keyfile_path" =
      cfgGet [("drive_partition", "/dev/sda1")] "keyfile_path" ∧
     cfgGet [("drive_partition", "/dev/sda1"), ("volume_password", "prompted")]
        "personal_iterations_multiplier" =
      cfgGet [("drive_partition", "/dev/sda1")] "personal_iterations_multiplier" ∧
     cfgGet [("drive_partition", "/dev/sda1"), ("volume_password", "prompted")]
        "using_hidden_partition" =
      cfgGet [("drive_partition", "/dev/sda1")] "using_hidden_partition") ∧
    ((∃ msg evs2,
      validate_config_data "linux" benignWorld
        ([("drive_partition", "/dev/sda1")] ++ ("keyfile_path", "/kf") ::
          [("volume_password", "pw")]) = (Except.error msg, evs2) ∧
      validate_config_data "linux" benignWorld
        ([("drive_partition", "/dev/sda1")] ++ [("volume_password", "pw")]) =
        (Except.error msg, evs2)) ∨
    (∃ front back : Config,
      validate_config_data "linux" benignWorld
        ([("drive_partition", "/dev/sda1")] ++ ("keyfile_path", "/kf") ::
          [("volume_password", "pw")]) =
        (Except.ok (front ++ ("keyfile_path", "/kf") :: back), []) ∧
      validate_config_data "linux" benignWorld
        ([("drive_partition", "/dev/sda1")] ++ [("volume_password", "pw")]) =
        (Except.ok (front ++ back), []))) :=
  ⟨c10_none_tokens.1 "linux" cfgKfAbsent clKfAbsent rfl rfl,
   c10_none_tokens.2.1 "linux" cfgPimAbsent clPimAbsent rfl rfl,
   c10_none_tokens.2.2.1 "linux" cfgHidAbsent clHidAbsent rfl rfl,
   c10_none_tokens.2.2.2.1 "linux" benignWorld [("drive_partition", "/dev/sda1")]
     [("drive_partition", "/dev/sda1"), ("volume_password", "prompted")] [] rfl,
   c10_none_tokens.2.2.2.2 "keyfile_path" (Or.inl rfl) "linux" benignWorld
     [("drive_partition", "/dev/sda1")] [("volume_password", "pw")] "/kf"⟩

/-- C4: whenever `have_admin_rights` is false, `main` returns the privilege
exit code `-1` and `load_config_file` is never invoked; whenever loading
or validation raises `ConfigError`, `main` returns the distinct code `-2`;
and a completed launch returns `0`. -/
theorem c4_exit_codes :
    (∀ e : Env, have_admin_rights e = false →
      (pyMain e).outcome = MainOutcome.exit (-1) ∧
      (pyMain e).configLoaded = false) ∧
    (∀ (e : Env) (msg : String), have_admin_rights e = true →
      load_config_file e.parsedFile = Except.error msg →
      (pyMain e).outcome = MainOutcome.exit (-2)) ∧
    (∀ (e : Env) (cfg : Config) (msg : String) (evs : List RunEvent),
      have_admin_rights e = true →
      load_config_file e.parsedFile = Except.ok cfg →
      validate_config_data e.plat e.world cfg = (Except.error msg, evs) →
      (pyMain e).outcome = MainOutcome.exit (-2)) ∧
    (∀ (e : Env) (cfg cfg2 : Config) (evs : List RunEvent) (cl : List String),
      have_admin_rights e = true →
      load_config_file e.parsedFile = Except.ok cfg →
      validate_config_data e.plat e.world cfg = (Except.ok cfg2, evs) →
      build_veracrypt_cmdline e.plat cfg2 = Except.ok cl →
      (pyMain e).outcome = MainOutcome.exit 0) := by
  refine ⟨?_, ?_, ?_, ?_⟩
  · intro e h
    rw [pyMain_admin_false e h]
    exact ⟨rfl, rfl⟩
  · intro e msg h hl
    rw [pyMain_load_error e msg h hl]
  · intro e cfg msg evs h hl hv
    rw [pyMain_validate_error e cfg msg evs h hl hv]
  · intro e cfg cfg2 evs cl h hl hv hb
    rw [pyMain_launch e cfg cfg2 evs cl h hl hv hb]

/-- C4 witness: the four branches at concrete environments - a non-root
Linux user, an empty configuration file, a `Veracrypt` section missing its
partition, and a complete configuration. -/
theorem c4_witness :
    ((pyMain { envLinuxOk with uid := 1000 }).outcome = MainOutcome.exit (-1) ∧
     (pyMain { envLinuxOk with uid := 1000 }).configLoaded = false) ∧
    (pyMain { envLinuxOk with parsedFile := [] }).outcome =
      MainOutcome.exit (-2) ∧
    (pyMain { envLinuxOk with parsedFile := [("Veracrypt", [])] }).outcome =
      MainOutcome.exit (-2) ∧
    (pyMain envLinuxOk).outcome = MainOutcome.exit 0 :=
  ⟨c4_exit_codes.1 { envLinuxOk with uid := 1000 } rfl,
   c4_exit_codes.2.1 { envLinuxOk with parsedFile := [] }
     "Section [Veracrypt] not found in config file!" rfl rfl,
   c4_exit_codes.2.2.1 { envLinuxOk with parsedFile := [("Veracrypt", [])] }
     [] (drivePartitionErrMsg "sda 8:0 disk") [RunEvent.mk ["lsblk"] true false]
     rfl rfl rfl,
   c4_exit_codes.2.2.2 envLinuxOk cfgRoundTrip cfgRoundTrip [] clRoundTrip
     rfl rfl rfl rfl⟩

/-- C6: when the parsed configuration file has no section literally named
`Veracrypt` - in particular when the file does not exist, since
`ConfigParser.read` silently skips unreadable files and yields no
sections - `load_config_file` raises `ConfigError` with the
section-not-found message, and `main` consequently returns exit code
`-2`. -/
theorem c6_missing_section (parsedFile : List (String × Config))
    (hno : List.find? (fun s => s.1 == "Veracrypt") parsedFile = none) :
    load_config_file parsedFile =
      Except.error "Section [Veracrypt] not found in config file!" ∧
    (∀ e : Env, e.parsedFile = parsedFile → have_admin_rights e = true →
      (pyMain e).outcome = MainOutcome.exit (-2)) := by
  have hload : load_config_file parsedFile =
      Except.error "Section [Veracrypt] not found in config file!" := by
    unfold load_config_file
    rw [hno]
  refine ⟨hload, ?_⟩
  intro e hpf hadmin
  rw [pyMain_load_error e "Section [Veracrypt] not found in config file!"
    hadmin (by rw [hpf]; exact hload)]

/-- C6 witness: the theorem at the empty parsed file (a nonexistent
configuration path). -/
theorem c6_witness :
    load_config_file ([] : List (String × Config)) =
      Except.error "Section [Veracrypt] not found in config file!" ∧
    (pyMain { envLinuxOk with parsedFile := [] }).outcome =
      MainOutcome.exit (-2) :=
  have h := c6_missing_section [] rfl
  ⟨h.1, h.2 { envLinuxOk with parsedFile := [] } rfl rfl⟩

/-- C7: on native Linux, for every configuration whose `drive_partition`
is absent or empty, `validate_config_data` spawns exactly the diagnostic
`lsblk` with stdout piped (and stderr not captured), and raises a
`ConfigError` whose message is the literal text naming `DRIVE_PARTITION`
followed verbatim by the diagnostic's decoded stdout. -/
theorem c7_partition_diagnostic (w : World) (config_data : Config)
    (hdp : pyTruthy (cfgGet config_data "drive_partition") = false) :
    validate_config_data "linux" w config_data =
      (Except.error
        ("DRIVE_PARTITION is not set!\nPlease set it to the Linux partition of the Veracrypt volume [e.g. \x27/dev/sda1\x27].\nCurrently detected Linux partitions:\n"
          ++ (w.runResult ["lsblk"]).stdout),
       [RunEvent.mk ["lsblk"] true false]) := by
  show validateRest "linux" w config_data [] = _
  unfold validateRest
  rw [hdp]
  rfl

/-- C7 witness: the theorem at the empty configuration and the benign
world. -/
theorem c7_witness :
    pyTruthy (cfgGet ([] : Config) "drive_partition") = false ∧
    validate_config_data "linux" benignWorld [] =
      (Except.error
        ("DRIVE_PARTITION is not set!\nPlease set it to the Linux partition of the Veracrypt volume [e.g. \x27/dev/sda1\x27].\nCurrently detected Linux partitions:\n"
          ++ (benignWorld.runResult ["lsblk"]).stdout),
       [RunEvent.mk ["lsblk"] true false]) :=
  ⟨rfl, c7_partition_diagnostic benignWorld [] rfl⟩

/-- C8: once the external tool has been launched and waited on, `main`
returns `0` whatever exit status the external process hands to `wait`:
the status is neither inspected nor reflected, and the run terminates
normally (the launch and the wait are the final recorded events). -/
theorem c8_launch_exit_zero (e : Env) (r : Int) (cfg cfg2 : Config)
    (evs : List RunEvent) (cl : List String)
    (h : have_admin_rights e = true)
    (hl : load_config_file e.parsedFile = Except.ok cfg)
    (hv : validate_config_data e.plat e.world cfg = (Except.ok cfg2, evs))
    (hb : build_veracrypt_cmdline e.plat cfg2 = Except.ok cl) :
    (pyMain { e with veracryptWaitReturn := r }).outcome = MainOutcome.exit 0 ∧
    Event.popen (String.intercalate " " cl) true ∈
      (pyMain { e with veracryptWaitReturn := r }).events ∧
    (pyMain { e with veracryptWaitReturn := r }).events.getLast? =
      some (Event.waitProc r) := by
  have hres := pyMain_launch { e with veracryptWaitReturn := r } cfg cfg2 evs cl
    h hl hv hb
  rw [hres]
  refine ⟨rfl, ?_, ?_⟩
  · exact List.mem_append_right _ (List.mem_append_right _ (List.mem_cons_self _ _))
  · simp [List.getLast?_append]

/-- C8 witness: the theorem at the concrete Linux environment, with the
external tool reporting exit status 7. -/
theorem c8_witness :
    (pyMain { envLinuxOk with veracryptWaitReturn := 7 }).outcome =
      MainOutcome.exit 0 ∧
    Event.popen (String.intercalate " " clRoundTrip) true ∈
      (pyMain { envLinuxOk with veracryptWaitReturn := 7 }).events ∧
    (pyMain { envLinuxOk with veracryptWaitReturn := 7 }).events.getLast? =
      some (Event.waitProc 7) :=
  c8_launch_exit_zero envLinuxOk 7 cfgRoundTrip cfgRoundTrip [] clRoundTrip
    rfl rfl rfl rfl

/-- C5 (amended): the orchestrator's log output does not depend on the
resolved password - for any two runs whose loaded configurations differ
only in the (nonempty) `volume_password` value, `main` emits identical log
lines and returns the same outcome; the per-key debug logging masks the
value of `volume_password` as `******` while every other key's value is
logged in cleartext (the final info line, `mountLogLine`, is built from
only the last two command-line tokens).  The password value itself can
still appear in a log line when it coincides with another logged value,
such as the partition path - see the counterexample - which is what the
amendment allows for. -/
theorem c5_password_logging (e : Env) (F₁ F₂ : List (String × Config))
    (pre post : Config) (p₁ p₂ : String)
    (hpre : "volume_password" ∉ List.map Prod.fst pre)
    (h₁ : p₁ ≠ "") (h₂ : p₂ ≠ "")
    (hl₁ : load_config_file F₁ =
      Except.ok (pre ++ ("volume_password", p₁) :: post))
    (hl₂ : load_config_file F₂ =
      Except.ok (pre ++ ("volume_password", p₂) :: post)) :
    (pyMain { e with parsedFile := F₁ }).logs =
      (pyMain { e with parsedFile := F₂ }).logs ∧
    (pyMain { e with parsedFile := F₁ }).outcome =
      (pyMain { e with parsedFile := F₂ }).outcome ∧
    (∀ v, keyLogLine "volume_password" v = "volume_password=******") ∧
    (∀ k v, k ≠ "volume_password" → keyLogLine k v = k ++ "=" ++ v) := by
  have key : (pyMain { e with parsedFile := F₁ }).logs =
      (pyMain { e with parsedFile := F₂ }).logs ∧
      (pyMain { e with parsedFile := F₁ }).outcome =
      (pyMain { e with parsedFile := F₂ }).outcome := by
    cases hadmin : have_admin_rights { e with parsedFile := F₁ } with
    | false =>
      rw [pyMain_admin_false { e with parsedFile := F₁ } hadmin,
        pyMain_admin_false { e with parsedFile := F₂ } hadmin]
      exact ⟨rfl, rfl⟩
    | true =>
      rcases validate_ni e.plat e.world pre post p₁ p₂ hpre h₁ h₂ with
        ⟨msg, evs2, hVP, hVQ⟩ | ⟨front, back, hfr, hVP, hVQ⟩
      · rw [pyMain_validate_error { e with parsedFile := F₁ }
            (pre ++ ("volume_password", p₁) :: post) msg evs2 hadmin hl₁ hVP,
          pyMain_validate_error { e with parsedFile := F₂ }
            (pre ++ ("volume_password", p₂) :: post) msg evs2 hadmin hl₂ hVQ]
        refine ⟨?_, rfl⟩
        rw [debugLogs_ni pre post p₁ p₂]
      · rcases build_ni e.plat front back p₁ p₂ hfr with ⟨hBP, hBQ⟩ |
          ⟨cl₁, cl₂, hBP, hBQ, hlen, h2t, h1t⟩
        · rw [pyMain_build_error { e with parsedFile := F₁ }
              (pre ++ ("volume_password", p₁) :: post)
              (front ++ ("volume_password", p₁) :: back) [] hadmin hl₁ hVP hBP,
            pyMain_build_error { e with parsedFile := F₂ }
              (pre ++ ("volume_password", p₂) :: post)
              (front ++ ("volume_password", p₂) :: back) [] hadmin hl₂ hVQ hBQ]
          refine ⟨?_, rfl⟩
          rw [debugLogs_ni pre post p₁ p₂,
            mainWinLogs_ni { e with parsedFile := F₁ } { e with parsedFile := F₂ }
              front back p₁ p₂ rfl rfl]
        · rw [pyMain_launch { e with parsedFile := F₁ }
              (pre ++ ("volume_password", p₁) :: post)
              (front ++ ("volume_password", p₁) :: back) [] cl₁ hadmin hl₁ hVP hBP,
            pyMain_launch { e with parsedFile := F₂ }
              (pre ++ ("volume_password", p₂) :: post)
              (front ++ ("volume_password", p₂) :: back) [] cl₂ hadmin hl₂ hVQ hBQ]
          refine ⟨?_, rfl⟩
          rw [debugLogs_ni pre post p₁ p₂, h2t, h1t,
            mainWinLogs_ni { e with parsedFile := F₁ } { e with parsedFile := F₂ }
              front back p₁ p₂ rfl rfl]
  refine ⟨key.1, key.2, fun v => rfl, fun k v hk => ?_⟩
  simp [keyLogLine, maskedValue, hk]

/-- C5 witness: two concrete runs differing only in the password value
produce identical logs and outcome, and the masking facts at concrete
keys. -/
theorem c5_witness :
    (pyMain { envLinuxOk with parsedFile :=
      [("Veracrypt",
        [("drive_partition", "/dev/sda1"), ("volume_password", "aaa")])] }).logs =
      (pyMain { envLinuxOk with parsedFile :=
        [("Veracrypt",
          [("drive_partition", "/dev/sda1"), ("volume_password", "bbb")])] }).logs ∧
    (pyMain { envLinuxOk with parsedFile :=
      [("Veracrypt",
        [("drive_partition", "/dev/sda1"), ("volume_password", "aaa")])] }).outcome =
      (pyMain { envLinuxOk with parsedFile :=
        [("Veracrypt",
          [("drive_partition", "/dev/sda1"), ("volume_password", "bbb")])] }).outcome ∧
    keyLogLine "volume_password" "aaa" = "volume_password=******" ∧
    keyLogLine "drive_partition" "/dev/sda1" = "drive_partition=/dev/sda1" :=
  have h := c5_password_logging envLinuxOk
    [("Veracrypt", [("drive_partition", "/dev/sda1"), ("volume_password", "aaa")])]
    [("Veracrypt", [("drive_partition", "/dev/sda1"), ("volume_password", "bbb")])]
    [("drive_partition", "/dev/sda1")] [] "aaa" "bbb"
    (by decide) (by decide) (by decide) rfl rfl
  ⟨h.1, h.2.1, h.2.2.1 "aaa", h.2.2.2 "drive_partition" "/dev/sda1" (by decide)⟩
